import Mathlib

/-!
Shallow embedding of the payment reconciliation subsystem of the
Pradhan-Chemistry-Classes admissions portal (src/admissions/views.py and
src/admissions/models.py), together with theorems settling the frozen
claims about its specification.

Machine-level ingredients that the claims do not inspect internally are
passed as explicit function parameters: the HMAC-SHA256 digest used by the
provider-A (Razorpay) signature check and the SHA-256 hex digest used by
the provider-B (PhonePe) checksum are parameters of type
`String -> String -> String` and `String -> String`; timestamps
(`timezone.now()`) are `Nat` parameters; the outcome of an outbound
SMS/WhatsApp dispatch is a pair of booleans.
-/

namespace Admissions

/-- Canonical payment status enum (`PaymentStatus` in models.py). -/
inductive PaymentStatus where
  | pending
  | paid
  | failed
  deriving DecidableEq, Repr

/-- Admission fee status enum (`FeeStatus` in models.py). -/
inductive FeeStatus where
  | pending
  | paid
  deriving DecidableEq, Repr

/-- Gateway enum (`PaymentGateway` in models.py). -/
inductive PaymentGateway where
  | razorpay
  | phonepe
  deriving DecidableEq, Repr

/-- The Admission fields the reconciliation subsystem reads or writes
(models.py, class `Admission`). -/
structure Admission where
  fee_amount : Nat
  fee_paid : Nat
  fee_status : FeeStatus
  deriving DecidableEq, Repr

/-- The Payment record (models.py, class `Payment`). `notified_at` and
`paid_at` are nullable timestamps, modelled as `Option Nat`. -/
structure Payment where
  amount : Nat
  gateway : Option PaymentGateway
  status : PaymentStatus
  reference_id : String
  order_id : String
  payment_id : String
  signature : String
  gateway_response : String
  notified_at : Option Nat
  paid_at : Option Nat
  deriving DecidableEq, Repr

/-- Python `str.upper()` on a string of basic-latin characters, embedded as
a structural map over the code points (Lean's own `String.toUpper` is
defined by well-founded recursion on positions and does not reduce in the
kernel; this structurally recursive form is extensionally the same map). -/
def pyUpper (s : String) : String :=
  String.mk (s.data.map Char.toUpper)

/-- Python truthiness fallback `a or b` where `a` is `dict.get(k)` (absent
key gives `None`) and `b` is a string: `None` and `""` both fall through. -/
def pyOrOpt (a : Option String) (b : String) : String :=
  match a with
  | none => b
  | some s => if s = "" then b else s

/-- Python truthiness fallback `a or b` on two strings: `""` falls through. -/
def pyOrStr (a b : String) : String :=
  if a = "" then b else a

/-- Embedding of `_map_phonepe_status(state, response_code)`
(views.py lines 888-895): uppercase both inputs; state in
{COMPLETED, SUCCESS} or code in {PAYMENT_SUCCESS, SUCCESS} gives Paid;
otherwise state in {FAILED, ERROR} or code in {PAYMENT_ERROR, FAILED}
gives Failed; otherwise Pending. -/
def map_phonepe_status (state response_code : String) : PaymentStatus :=
  let state_upper := pyUpper state
  let code_upper := pyUpper response_code
  if state_upper = "COMPLETED" ∨ state_upper = "SUCCESS"
      ∨ code_upper = "PAYMENT_SUCCESS" ∨ code_upper = "SUCCESS" then
    .paid
  else if state_upper = "FAILED" ∨ state_upper = "ERROR"
      ∨ code_upper = "PAYMENT_ERROR" ∨ code_upper = "FAILED" then
    .failed
  else
    .pending

/-- Notification configuration read from Django settings by
`_maybe_send_payment_notifications`, `_sms_configured` and
`_whatsapp_configured` (views.py lines 978-1020):
`SEND_PAYMENT_NOTIFICATIONS` plus whether each channel has a provider and
complete credentials configured. -/
structure NotifyConfig where
  send_payment_notifications : Bool
  sms_configured : Bool
  whatsapp_configured : Bool
  deriving DecidableEq, Repr

/-- Result of the outbound dispatch attempts: what `_send_sms` /
`_send_whatsapp` would return if called (network success booleans;
a transport error is swallowed inside them and surfaces as `false`). -/
structure DispatchOutcome where
  sms_ok : Bool
  whatsapp_ok : Bool
  deriving DecidableEq, Repr

/-- Embedding of `_maybe_send_payment_notifications(admission, payment)`
(views.py lines 978-999): no-op when notifications are disabled or
`notified_at` is already set; otherwise attempt each configured channel and
stamp `notified_at` with the current time when at least one reported
success. Returns the (possibly updated) payment. -/
def maybe_send_payment_notifications (cfg : NotifyConfig) (d : DispatchOutcome)
    (now : Nat) (_adm : Admission) (p : Payment) : Payment :=
  if cfg.send_payment_notifications = false then p
  else if p.notified_at.isSome then p
  else
    let sms_sent := cfg.sms_configured && d.sms_ok
    let whatsapp_sent := cfg.whatsapp_configured && d.whatsapp_ok
    if sms_sent || whatsapp_sent then { p with notified_at := some now } else p

/-- The fields of the decoded PhonePe JSON payload that
`_update_payment_from_phonepe` reads (views.py lines 862-867), plus the
serialized raw payload stored in `gateway_response`. `data_state`,
`data_responseCode` and `merchantTransactionId` come from
`decoded["data"].get(...)` with no default (absent keys give `None`,
hence `Option String`); the rest use a `""` default. -/
structure PhonePeDecoded where
  data_state : Option String
  top_state : String
  data_responseCode : Option String
  top_code : String
  transactionId : String
  utr : String
  providerReferenceId : String
  merchantTransactionId : Option String
  raw : String
  deriving DecidableEq, Repr

/-- The provider state string resolved by `_update_payment_from_phonepe`
line 864: `transaction_data.get("state") or decoded.get("state", "")`. -/
def resolvedState (dec : PhonePeDecoded) : String :=
  pyOrOpt dec.data_state dec.top_state

/-- The provider response-code string resolved by
`_update_payment_from_phonepe` line 865: `transaction_data.get("responseCode")
or decoded.get("code", "")`. -/
def resolvedCode (dec : PhonePeDecoded) : String :=
  pyOrOpt dec.data_responseCode dec.top_code

/-- Embedding of `_update_payment_from_phonepe(payment, decoded)`
(views.py lines 862-885): unconditionally record gateway, payment_id,
reference_id and raw response; overwrite `status` with the mapped status;
when the mapped status is Paid, stamp `paid_at`, mark the admission paid
with `fee_paid = payment.amount`, and invoke the notifier. Returns the
updated payment and admission. -/
def update_payment_from_phonepe (cfg : NotifyConfig) (d : DispatchOutcome)
    (now : Nat) (p : Payment) (adm : Admission) (dec : PhonePeDecoded) :
    Payment × Admission :=
  let p1 : Payment := { p with
    gateway := some .phonepe
    payment_id := dec.transactionId
    reference_id := pyOrStr dec.utr dec.providerReferenceId
    gateway_response := dec.raw }
  let status := map_phonepe_status (resolvedState dec) (resolvedCode dec)
  let p2 : Payment := { p1 with status := status }
  let p3 : Payment := if status = .paid then { p2 with paid_at := some now } else p2
  if status = .paid then
    let adm2 : Admission := { adm with fee_status := .paid, fee_paid := p3.amount }
    let p4 := maybe_send_payment_notifications cfg d now adm2 p3
    (p4, adm2)
  else
    (p3, adm)

/-- Embedding of `_verify_razorpay_signature(order_id, payment_id,
signature, key_secret)` (views.py lines 738-747): reject outright when any
argument is empty; otherwise compare the provided signature against
HMAC-SHA256 of `"{order_id}|{payment_id}"` keyed by the secret. The digest
function is a parameter `hmac_sha256 key message`. -/
def verify_razorpay_signature (hmac_sha256 : String → String → String)
    (order_id payment_id signature key_secret : String) : Bool :=
  if order_id = "" ∨ payment_id = "" ∨ signature = "" ∨ key_secret = "" then
    false
  else
    hmac_sha256 key_secret (order_id ++ "|" ++ payment_id) == signature

/-- Outcome reported by the redirect-verify view to its caller. -/
inductive VerifyOutcome where
  | notFound
  | verificationFailed
  | success
  deriving DecidableEq, Repr

/-- Embedding of the body of `payment_verify` after the Payment lookup has
succeeded (views.py lines 289-312): on signature failure set status Failed
and persist the offered payment_id/signature; on success set status Paid,
stamp `paid_at`, mark the admission paid and invoke the notifier. -/
def payment_verify_found (hmac_sha256 : String → String → String)
    (key_secret : String) (cfg : NotifyConfig) (d : DispatchOutcome) (now : Nat)
    (order_id payment_id signature : String) (p : Payment) (adm : Admission) :
    VerifyOutcome × Payment × Admission :=
  if verify_razorpay_signature hmac_sha256 order_id payment_id signature key_secret = false then
    (.verificationFailed,
      { p with status := .failed, payment_id := payment_id, signature := signature },
      adm)
  else
    let p1 : Payment :=
      { p with status := .paid, payment_id := payment_id,
               signature := signature, paid_at := some now }
    let adm1 : Admission := { adm with fee_status := .paid, fee_paid := p1.amount }
    let p2 := maybe_send_payment_notifications cfg d now adm1 p1
    (.success, p2, adm1)

/-- Embedding of the `paid_at` backfill in `admission_success`
(views.py lines 182-184): stamp `paid_at` only when the payment is Paid and
`paid_at` is still null. -/
def admission_success_backfill (now : Nat) (p : Payment) : Payment :=
  if p.status = .paid ∧ p.paid_at = none then { p with paid_at := some now } else p

/-- One row of the persistent store: a Payment and its one-to-one
Admission, keyed by the admission id (`Payment.admission` is a
`OneToOneField` in models.py). -/
structure AccountRow where
  admission_id : Nat
  payment : Payment
  admission : Admission
  deriving DecidableEq, Repr

/-- Lookup `Payment.objects.filter(order_id=...).first()` over the store. -/
def findByOrderId (db : List AccountRow) (oid : String) : Option AccountRow :=
  db.find? (fun row => row.payment.order_id == oid)

/-- Lookup `Payment.objects.filter(admission_id=...).first()` over the store. -/
def findByAdmissionId (db : List AccountRow) (aid : Nat) : Option AccountRow :=
  db.find? (fun row => row.admission_id == aid)

/-- Persist the updated payment and admission of the row keyed `aid`. -/
def storeRow (db : List AccountRow) (aid : Nat) (p : Payment) (adm : Admission) :
    List AccountRow :=
  db.map (fun row =>
    if row.admission_id == aid then { row with payment := p, admission := adm } else row)

/-- Embedding of the view `payment_verify` (views.py lines 279-312) over the
store: look up the Payment by the posted `razorpay_order_id`; report
not-found without any write when the lookup misses, otherwise run the
per-payment verify-and-reconcile body and persist its result. -/
def payment_verify (hmac_sha256 : String → String → String) (key_secret : String)
    (cfg : NotifyConfig) (d : DispatchOutcome) (now : Nat)
    (order_id payment_id signature : String) (db : List AccountRow) :
    VerifyOutcome × List AccountRow :=
  match findByOrderId db order_id with
  | none => (.notFound, db)
  | some row =>
    let r := payment_verify_found hmac_sha256 key_secret cfg d now
      order_id payment_id signature row.payment row.admission
    (r.1, storeRow db row.admission_id r.2.1 r.2.2)

/-- HTTP-level outcome of the webhook callback view, restricted to the part
of `phonepe_callback` after the envelope has been decoded (the earlier
400-class rejections for bad JSON, missing response, missing configuration
and signature mismatch never reach the store). -/
inductive CallbackOutcome where
  | missingTransaction
  | paymentNotFound
  | ok
  deriving DecidableEq, Repr

/-- Embedding of `phonepe_callback` from the decoded envelope on
(views.py lines 832-842): reject with 400 when `merchantTransactionId` is
absent or empty; report 404 without any write when no Payment matches it;
otherwise reconcile through `_update_payment_from_phonepe` and persist. -/
def phonepe_callback (cfg : NotifyConfig) (d : DispatchOutcome) (now : Nat)
    (dec : PhonePeDecoded) (db : List AccountRow) :
    CallbackOutcome × List AccountRow :=
  match dec.merchantTransactionId with
  | none => (.missingTransaction, db)
  | some tid =>
    if tid = "" then (.missingTransaction, db)
    else
      match findByOrderId db tid with
      | none => (.paymentNotFound, db)
      | some row =>
        let r := update_payment_from_phonepe cfg d now row.payment row.admission dec
        (.ok, storeRow db row.admission_id r.1 r.2)

/-- Outcome of the status-poll view reported to the user. -/
inductive PollOutcome where
  | notFound
  | gatewayError
  | updated
  deriving DecidableEq, Repr

/-- Embedding of `phonepe_status_check(request, admission_id)`
(views.py lines 845-859): look up the Payment by admission id; report
not-found without any write when there is no Payment or its `order_id` is
empty; a gateway fetch failure (`fetched = none`, the `RuntimeError`
branch) also writes nothing; otherwise reconcile the fetched response
through `_update_payment_from_phonepe` and persist. -/
def phonepe_status_check (cfg : NotifyConfig) (d : DispatchOutcome) (now : Nat)
    (fetched : Option PhonePeDecoded) (aid : Nat) (db : List AccountRow) :
    PollOutcome × List AccountRow :=
  match findByAdmissionId db aid with
  | none => (.notFound, db)
  | some row =>
    if row.payment.order_id = "" then (.notFound, db)
    else
      match fetched with
      | none => (.gatewayError, db)
      | some dec =>
        let r := update_payment_from_phonepe cfg d now row.payment row.admission dec
        (.updated, storeRow db row.admission_id r.1 r.2)

/-- Embedding of `_phonepe_checksum(payload_b64, api_path, salt_key,
salt_index)` (views.py lines 963-966): SHA-256 hex digest of
`"{payload_b64}{api_path}{salt_key}"` with `"###{salt_index}"` appended.
The digest is the parameter `sha256`. -/
def phonepe_checksum (sha256 : String → String)
    (payload_b64 api_path salt_key salt_index : String) : String :=
  sha256 (payload_b64 ++ api_path ++ salt_key) ++ "###" ++ salt_index

/-- Embedding of `_verify_phonepe_callback(response_b64, header_value,
salt_key, salt_index)` (views.py lines 969-975): reject a missing or empty
header; otherwise compare it in constant time against the SHA-256 hex
digest of `"{response_b64}{salt_key}"` with `"###{salt_index}"` appended. -/
def verify_phonepe_callback (sha256 : String → String)
    (response_b64 : String) (header_value : Option String)
    (salt_key salt_index : String) : Bool :=
  match header_value with
  | none => false
  | some h =>
    if h = "" then false
    else (sha256 (response_b64 ++ salt_key) ++ "###" ++ salt_index) == h

/-- One reconciliation operation applied to a single Payment/Admission
pair: a PhonePe gateway outcome (delivered by the webhook callback or the
status poll, both of which funnel into `_update_payment_from_phonepe`), or
a Razorpay redirect-verify request against this payment. -/
inductive ReconOp where
  | phonepeOutcome (cfg : NotifyConfig) (d : DispatchOutcome) (now : Nat)
      (dec : PhonePeDecoded)
  | redirectVerify (hmac_sha256 : String → String → String) (key_secret : String)
      (cfg : NotifyConfig) (d : DispatchOutcome) (now : Nat)
      (order_id payment_id signature : String)

/-- Apply one reconciliation operation to a Payment/Admission pair. -/
def runOp (op : ReconOp) (s : Payment × Admission) : Payment × Admission :=
  match op with
  | .phonepeOutcome cfg d now dec =>
    update_payment_from_phonepe cfg d now s.1 s.2 dec
  | .redirectVerify h k cfg d now oid pid sg =>
    (payment_verify_found h k cfg d now oid pid sg s.1 s.2).2

/-- Apply a sequence of reconciliation operations in order. -/
def runOps (ops : List ReconOp) (s : Payment × Admission) : Payment × Admission :=
  ops.foldl (fun t op => runOp op t) s

/-! Helper lemmas shared by the claim proofs. -/

/-- The notifier either leaves the payment unchanged or only stamps
`notified_at` with the current time. -/
theorem maybe_send_eq_or (cfg : NotifyConfig) (d : DispatchOutcome) (now : Nat)
    (adm : Admission) (p : Payment) :
    maybe_send_payment_notifications cfg d now adm p = p ∨
      maybe_send_payment_notifications cfg d now adm p
        = { p with notified_at := some now } := by
  unfold maybe_send_payment_notifications
  split
  · exact Or.inl rfl
  · split
    · exact Or.inl rfl
    · simp only []
      split
      · exact Or.inr rfl
      · exact Or.inl rfl

/-- Closed form of `_update_payment_from_phonepe` when the mapped status is
Paid: proof fields recorded, status Paid, `paid_at` stamped, admission
marked paid with `fee_paid = payment.amount`, notifier invoked. -/
theorem update_paid_eq (cfg : NotifyConfig) (d : DispatchOutcome) (now : Nat)
    (p : Payment) (adm : Admission) (dec : PhonePeDecoded)
    (hp : map_phonepe_status (resolvedState dec) (resolvedCode dec)
      = PaymentStatus.paid) :
    update_payment_from_phonepe cfg d now p adm dec =
      (maybe_send_payment_notifications cfg d now
          { adm with fee_status := .paid, fee_paid := p.amount }
          { p with gateway := some .phonepe,
                   payment_id := dec.transactionId,
                   reference_id := pyOrStr dec.utr dec.providerReferenceId,
                   gateway_response := dec.raw,
                   status := .paid, paid_at := some now },
        { adm with fee_status := .paid, fee_paid := p.amount }) := by
  unfold update_payment_from_phonepe
  simp [hp]

/-- Closed form of `_update_payment_from_phonepe` when the mapped status is
not Paid: proof fields recorded, status overwritten with the mapped value,
everything else (including the admission) untouched. -/
theorem update_not_paid_eq (cfg : NotifyConfig) (d : DispatchOutcome) (now : Nat)
    (p : Payment) (adm : Admission) (dec : PhonePeDecoded)
    (hp : map_phonepe_status (resolvedState dec) (resolvedCode dec)
      ≠ PaymentStatus.paid) :
    update_payment_from_phonepe cfg d now p adm dec =
      ({ p with gateway := some .phonepe,
                payment_id := dec.transactionId,
                reference_id := pyOrStr dec.utr dec.providerReferenceId,
                gateway_response := dec.raw,
                status := map_phonepe_status (resolvedState dec) (resolvedCode dec) },
        adm) := by
  unfold update_payment_from_phonepe
  simp [hp]

/-- The reconciled payment's status is exactly the mapped status. -/
theorem update_status_eq (cfg : NotifyConfig) (d : DispatchOutcome) (now : Nat)
    (p : Payment) (adm : Admission) (dec : PhonePeDecoded) :
    (update_payment_from_phonepe cfg d now p adm dec).1.status
      = map_phonepe_status (resolvedState dec) (resolvedCode dec) := by
  by_cases hp : map_phonepe_status (resolvedState dec) (resolvedCode dec)
      = PaymentStatus.paid
  · rw [update_paid_eq cfg d now p adm dec hp]
    rcases maybe_send_eq_or cfg d now
        { adm with fee_status := .paid, fee_paid := p.amount }
        { p with gateway := some .phonepe,
                 payment_id := dec.transactionId,
                 reference_id := pyOrStr dec.utr dec.providerReferenceId,
                 gateway_response := dec.raw,
                 status := .paid, paid_at := some now } with h | h
    · rw [h, hp]
    · rw [h, hp]
  · rw [update_not_paid_eq cfg d now p adm dec hp]

/-- Reconciliation never changes the payment amount. -/
theorem update_amount_eq (cfg : NotifyConfig) (d : DispatchOutcome) (now : Nat)
    (p : Payment) (adm : Admission) (dec : PhonePeDecoded) :
    (update_payment_from_phonepe cfg d now p adm dec).1.amount = p.amount := by
  by_cases hp : map_phonepe_status (resolvedState dec) (resolvedCode dec)
      = PaymentStatus.paid
  · rw [update_paid_eq cfg d now p adm dec hp]
    rcases maybe_send_eq_or cfg d now
        { adm with fee_status := .paid, fee_paid := p.amount }
        { p with gateway := some .phonepe,
                 payment_id := dec.transactionId,
                 reference_id := pyOrStr dec.utr dec.providerReferenceId,
                 gateway_response := dec.raw,
                 status := .paid, paid_at := some now } with h | h
    · rw [h]
    · rw [h]
  · rw [update_not_paid_eq cfg d now p adm dec hp]

/-- Closed form of the redirect-verify body when the signature check fails:
status Failed, offered proof fields persisted, admission untouched. -/
theorem pvf_invalid_eq (hm : String → String → String) (k : String)
    (cfg : NotifyConfig) (d : DispatchOutcome) (now : Nat)
    (oid pid sg : String) (p : Payment) (adm : Admission)
    (hv : verify_razorpay_signature hm oid pid sg k = false) :
    payment_verify_found hm k cfg d now oid pid sg p adm =
      (.verificationFailed,
        { p with status := .failed, payment_id := pid, signature := sg },
        adm) := by
  unfold payment_verify_found
  simp [hv]

/-- Closed form of the redirect-verify body when the signature check
succeeds: status Paid, `paid_at` stamped, admission marked paid, notifier
invoked. -/
theorem pvf_valid_eq (hm : String → String → String) (k : String)
    (cfg : NotifyConfig) (d : DispatchOutcome) (now : Nat)
    (oid pid sg : String) (p : Payment) (adm : Admission)
    (hv : verify_razorpay_signature hm oid pid sg k = true) :
    payment_verify_found hm k cfg d now oid pid sg p adm =
      (.success,
        maybe_send_payment_notifications cfg d now
          { adm with fee_status := .paid, fee_paid := p.amount }
          { p with status := .paid, payment_id := pid, signature := sg,
                   paid_at := some now },
        { adm with fee_status := .paid, fee_paid := p.amount }) := by
  unfold payment_verify_found
  simp [hv]

/-- The notifier never changes the status, amount or `paid_at` of the
payment it is given. -/
theorem maybe_send_preserves (cfg : NotifyConfig) (d : DispatchOutcome)
    (now : Nat) (adm : Admission) (p : Payment) :
    (maybe_send_payment_notifications cfg d now adm p).status = p.status ∧
    (maybe_send_payment_notifications cfg d now adm p).amount = p.amount ∧
    (maybe_send_payment_notifications cfg d now adm p).paid_at = p.paid_at := by
  rcases maybe_send_eq_or cfg d now adm p with h | h <;> rw [h] <;>
    exact ⟨rfl, rfl, rfl⟩

/-- A notification configuration with everything enabled, used to
instantiate theorems at concrete inputs. -/
def witnessCfg : NotifyConfig :=
  { send_payment_notifications := true, sms_configured := true,
    whatsapp_configured := false }

/-- A dispatch outcome where the SMS send succeeds, used to instantiate
theorems at concrete inputs. -/
def witnessDisp : DispatchOutcome := { sms_ok := true, whatsapp_ok := false }

/-! Claim theorems. -/

/-- C4 (counterexample): the status mapping is not symmetric across the two
provider fields as the claim states. A state of `PAYMENT_SUCCESS` and a
response code of `COMPLETED` both map to Pending (the claim says Paid), and
a state of `PAYMENT_ERROR` and a response code of `ERROR` both map to
Pending (the claim says Failed). -/
theorem c4_counterexample :
    map_phonepe_status "PAYMENT_SUCCESS" "" = PaymentStatus.pending ∧
    map_phonepe_status "" "COMPLETED" = PaymentStatus.pending ∧
    map_phonepe_status "PAYMENT_ERROR" "" = PaymentStatus.pending ∧
    map_phonepe_status "" "ERROR" = PaymentStatus.pending := by
  decide

/-- C4 (amended): the mapping uppercases both fields, and checks the state
field against {COMPLETED, SUCCESS} and the response-code field against
{PAYMENT_SUCCESS, SUCCESS} for Paid; failing that, the state field against
{FAILED, ERROR} and the response-code field against {PAYMENT_ERROR, FAILED}
for Failed; every other pair maps to Pending. -/
theorem c4_map_characterization (state code : String) :
    (map_phonepe_status state code = PaymentStatus.paid ↔
      (pyUpper state = "COMPLETED" ∨ pyUpper state = "SUCCESS"
        ∨ pyUpper code = "PAYMENT_SUCCESS" ∨ pyUpper code = "SUCCESS")) ∧
    (map_phonepe_status state code = PaymentStatus.failed ↔
      (¬(pyUpper state = "COMPLETED" ∨ pyUpper state = "SUCCESS"
          ∨ pyUpper code = "PAYMENT_SUCCESS" ∨ pyUpper code = "SUCCESS")
        ∧ (pyUpper state = "FAILED" ∨ pyUpper state = "ERROR"
            ∨ pyUpper code = "PAYMENT_ERROR" ∨ pyUpper code = "FAILED"))) ∧
    (map_phonepe_status state code = PaymentStatus.pending ↔
      (¬(pyUpper state = "COMPLETED" ∨ pyUpper state = "SUCCESS"
          ∨ pyUpper code = "PAYMENT_SUCCESS" ∨ pyUpper code = "SUCCESS")
        ∧ ¬(pyUpper state = "FAILED" ∨ pyUpper state = "ERROR"
            ∨ pyUpper code = "PAYMENT_ERROR" ∨ pyUpper code = "FAILED"))) := by
  by_cases hP : pyUpper state = "COMPLETED" ∨ pyUpper state = "SUCCESS"
      ∨ pyUpper code = "PAYMENT_SUCCESS" ∨ pyUpper code = "SUCCESS"
  · simp [map_phonepe_status, hP]
  · by_cases hF : pyUpper state = "FAILED" ∨ pyUpper state = "ERROR"
        ∨ pyUpper code = "PAYMENT_ERROR" ∨ pyUpper code = "FAILED"
    · simp [map_phonepe_status, hP, hF]
    · simp [map_phonepe_status, hP, hF]

/-- C8: the webhook integrity check accepts a header exactly when it equals
the provider-B checksum of the spec's scheme applied to the base64 envelope
with an empty api path: the unkeyed digest of
`"{payload_base64}{salt_key}"` with `"###{salt_index}"` appended. -/
theorem c8_callback_accepts_iff_checksum (sha256 : String → String)
    (response_b64 salt_key salt_index : String) (header_value : Option String) :
    verify_phonepe_callback sha256 response_b64 header_value salt_key salt_index
        = true ↔
      header_value = some (phonepe_checksum sha256 response_b64 "" salt_key salt_index) := by
  unfold verify_phonepe_callback phonepe_checksum
  cases header_value with
  | none => simp
  | some h =>
    dsimp only
    by_cases hh : h = ""
    · subst hh
      rw [if_pos rfl]
      constructor
      · intro hfalse
        exact absurd hfalse (by decide)
      · intro hc
        exfalso
        injection hc with hc2
        have hlen := congrArg String.length hc2
        have h3 : ("###" : String).length = 3 := rfl
        have h0 : ("" : String).length = 0 := rfl
        simp only [String.length_append] at hlen
        omega
    · simp only [if_neg hh, beq_iff_eq, String.append_empty, Option.some.injEq]
      exact eq_comm

/-- C9: the notifier is a no-op unless notifications are enabled,
`notified_at` is still null, and at least one configured channel reports a
successful dispatch, in which case it only stamps `notified_at` with the
current time; consequently `notified_at` ends up non-null exactly when it
already was, or notifications are enabled and some configured channel
succeeded — a dispatch failure is swallowed and leaves it null. -/
theorem c9_notifier_behaviour (cfg : NotifyConfig) (d : DispatchOutcome)
    (now : Nat) (adm : Admission) (p : Payment) :
    (maybe_send_payment_notifications cfg d now adm p
      = if cfg.send_payment_notifications = false ∨ p.notified_at.isSome
            ∨ ((cfg.sms_configured && d.sms_ok)
                || (cfg.whatsapp_configured && d.whatsapp_ok)) = false
        then p
        else { p with notified_at := some now }) ∧
    (maybe_send_payment_notifications cfg d now adm p).notified_at.isSome
      = (p.notified_at.isSome
          || (cfg.send_payment_notifications
              && ((cfg.sms_configured && d.sms_ok)
                  || (cfg.whatsapp_configured && d.whatsapp_ok)))) := by
  unfold maybe_send_payment_notifications
  cases hsend : cfg.send_payment_notifications with
  | false => simp [hsend]
  | true =>
    cases hn : p.notified_at with
    | some t => simp [hn]
    | none =>
      cases hsucc : (cfg.sms_configured && d.sms_ok)
          || (cfg.whatsapp_configured && d.whatsapp_ok) with
      | false => simp [hn, hsucc]
      | true => simp [hn, hsucc]

/-- C10: the provider-A signature check rejects whenever any of the order
id, payment id, signature or secret is empty — for every digest function,
so no digest is consulted — and with an unconfigured (empty) secret the
redirect-verify body always reports verification failure and marks the
payment Failed, leaving the admission untouched; at the store level it can
never report success. -/
theorem c10_empty_secret_always_rejects (hm : String → String → String)
    (cfg : NotifyConfig) (d : DispatchOutcome) (now : Nat)
    (oid pid sg k : String) (p : Payment) (adm : Admission)
    (db : List AccountRow) :
    verify_razorpay_signature hm "" pid sg k = false ∧
    verify_razorpay_signature hm oid "" sg k = false ∧
    verify_razorpay_signature hm oid pid "" k = false ∧
    verify_razorpay_signature hm oid pid sg "" = false ∧
    (payment_verify_found hm "" cfg d now oid pid sg p adm).1
        = VerifyOutcome.verificationFailed ∧
    (payment_verify_found hm "" cfg d now oid pid sg p adm).2.1.status
        = PaymentStatus.failed ∧
    (payment_verify_found hm "" cfg d now oid pid sg p adm).2.2 = adm ∧
    ((payment_verify hm "" cfg d now oid pid sg db).1 = VerifyOutcome.notFound
      ∨ (payment_verify hm "" cfg d now oid pid sg db).1
          = VerifyOutcome.verificationFailed) := by
  have hempty : ∀ o pi s, verify_razorpay_signature hm o pi s "" = false := by
    intro o pi s
    unfold verify_razorpay_signature
    simp
  have hfound := pvf_invalid_eq hm "" cfg d now oid pid sg p adm (hempty oid pid sg)
  refine ⟨?_, ?_, ?_, hempty oid pid sg, ?_, ?_, ?_, ?_⟩
  · unfold verify_razorpay_signature; simp
  · unfold verify_razorpay_signature; simp
  · unfold verify_razorpay_signature; simp
  · rw [hfound]
  · rw [hfound]
  · rw [hfound]
  · unfold payment_verify
    cases hfind : findByOrderId db oid with
    | none => exact Or.inl rfl
    | some row =>
      simp only []
      rw [pvf_invalid_eq hm "" cfg d now oid pid sg row.payment row.admission
        (hempty oid pid sg)]
      exact Or.inr rfl

/-- A Payment already reconciled as Paid, with its audit fields and
timestamps set: the starting point for the monotonicity counterexample. -/
def c1Payment : Payment :=
  { amount := 1500, gateway := some .phonepe, status := .paid,
    reference_id := "U1", order_id := "ADM42171700000001", payment_id := "T1",
    signature := "", gateway_response := "", notified_at := some 10,
    paid_at := some 10 }

/-- The admission matching `c1Payment`, already marked paid. -/
def c1Admission : Admission :=
  { fee_amount := 1500, fee_paid := 1500, fee_status := .paid }

/-- A webhook payload whose provider state is FAILED. -/
def c1FailedOutcome : PhonePeDecoded :=
  { data_state := some "FAILED", top_state := "", data_responseCode := none,
    top_code := "", transactionId := "T2", utr := "", providerReferenceId := "",
    merchantTransactionId := some "ADM42171700000001", raw := "" }

/-- Notifications enabled with only SMS configured. -/
def c1Cfg : NotifyConfig :=
  { send_payment_notifications := true, sms_configured := true,
    whatsapp_configured := false }

/-- Both dispatch channels would succeed. -/
def c1Disp : DispatchOutcome := { sms_ok := true, whatsapp_ok := true }

/-- C1 (counterexample): a Failed-mapped gateway outcome applied to a
Payment whose status is Paid regresses the status to Failed, refuting the
claim that applying any outcome to a Paid payment leaves it Paid. -/
theorem c1_counterexample :
    c1Payment.status = PaymentStatus.paid ∧
    (update_payment_from_phonepe c1Cfg c1Disp 11 c1Payment c1Admission
        c1FailedOutcome).1.status = PaymentStatus.failed := by
  decide

/-- C1 (amended): reconciliation is last-write-wins, not monotonic. For a
Paid payment the reconciled status is exactly the mapped status of the
incoming outcome — a Paid-mapped outcome leaves it Paid, but a Failed- or
Pending-mapped outcome overwrites the Paid status — and a redirect-verify
with an invalid signature sets even a Paid payment to Failed. -/
theorem c1_last_write_wins (cfg : NotifyConfig) (d : DispatchOutcome)
    (now : Nat) (p : Payment) (adm : Admission) (dec : PhonePeDecoded)
    (hm : String → String → String) (k oid pid sg : String)
    (hp : p.status = PaymentStatus.paid)
    (hv : verify_razorpay_signature hm oid pid sg k = false) :
    (update_payment_from_phonepe cfg d now p adm dec).1.status
        = map_phonepe_status (resolvedState dec) (resolvedCode dec) ∧
    (payment_verify_found hm k cfg d now oid pid sg p adm).2.1.status
        = PaymentStatus.failed := by
  refine ⟨update_status_eq cfg d now p adm dec, ?_⟩
  rw [pvf_invalid_eq hm k cfg d now oid pid sg p adm hv]

/-- C1 (witness): the amended theorem applied at the counterexample
inputs. -/
theorem c1_witness :
    (c1Payment.status = PaymentStatus.paid ∧
      verify_razorpay_signature (fun _ _ => "x") "o" "p" "s" "" = false) ∧
    ((update_payment_from_phonepe c1Cfg c1Disp 11 c1Payment c1Admission
        c1FailedOutcome).1.status
        = map_phonepe_status (resolvedState c1FailedOutcome)
            (resolvedCode c1FailedOutcome) ∧
      (payment_verify_found (fun _ _ => "x") "" c1Cfg c1Disp 11 "o" "p" "s"
        c1Payment c1Admission).2.1.status = PaymentStatus.failed) :=
  ⟨⟨by decide, by decide⟩,
    c1_last_write_wins c1Cfg c1Disp 11 c1Payment c1Admission c1FailedOutcome
      (fun _ _ => "x") "" "o" "p" "s" (by decide) (by decide)⟩

/-- A Payment already Paid at time 5 with `paid_at` recorded. -/
def c3Payment : Payment :=
  { amount := 1500, gateway := some .phonepe, status := .paid,
    reference_id := "U1", order_id := "ORD3", payment_id := "T1",
    signature := "", gateway_response := "", notified_at := some 5,
    paid_at := some 5 }

/-- The admission matching `c3Payment`. -/
def c3Admission : Admission :=
  { fee_amount := 1500, fee_paid := 1500, fee_status := .paid }

/-- A webhook payload whose provider state is COMPLETED (maps to Paid). -/
def c3PaidOutcome : PhonePeDecoded :=
  { data_state := some "COMPLETED", top_state := "", data_responseCode := none,
    top_code := "", transactionId := "T1", utr := "U1",
    providerReferenceId := "", merchantTransactionId := some "ORD3", raw := "" }

/-- Notifications enabled with only SMS configured. -/
def c3Cfg : NotifyConfig :=
  { send_payment_notifications := true, sms_configured := true,
    whatsapp_configured := false }

/-- The SMS dispatch would succeed. -/
def c3Disp : DispatchOutcome := { sms_ok := true, whatsapp_ok := false }

/-- C3 (counterexample): replaying a Paid-mapped outcome at time 9 against
a payment whose `paid_at` is already 5 overwrites `paid_at` with 9,
refuting the claim that a non-null `paid_at` is never changed by a later
reconciliation. -/
theorem c3_counterexample :
    c3Payment.paid_at = some 5 ∧
    (update_payment_from_phonepe c3Cfg c3Disp 9 c3Payment c3Admission
        c3PaidOutcome).1.paid_at = some 9 := by
  decide

/-- C3 (amended): `paid_at` is stamped with the current time by every
reconciliation that resolves Paid — overwriting any earlier value — and is
left unchanged by reconciliations that resolve Failed or Pending, by a
failed redirect-verify, and by the `admission_success` backfill (which only
fills a null `paid_at`). -/
theorem c3_paid_at_rules (cfg : NotifyConfig) (d : DispatchOutcome)
    (now : Nat) (p : Payment) (adm : Admission) (dec : PhonePeDecoded)
    (hm : String → String → String) (k oid pid sg : String) (t : Nat)
    (hb : p.paid_at = some t) :
    (update_payment_from_phonepe cfg d now p adm dec).1.paid_at
      = (if map_phonepe_status (resolvedState dec) (resolvedCode dec)
            = PaymentStatus.paid
         then some now else some t) ∧
    admission_success_backfill now p = p ∧
    (payment_verify_found hm k cfg d now oid pid sg p adm).2.1.paid_at
      = (if verify_razorpay_signature hm oid pid sg k then some now
         else some t) := by
  refine ⟨?_, ?_, ?_⟩
  · by_cases hp : map_phonepe_status (resolvedState dec) (resolvedCode dec)
        = PaymentStatus.paid
    · rw [update_paid_eq cfg d now p adm dec hp, if_pos hp]
      rcases maybe_send_eq_or cfg d now
          { adm with fee_status := .paid, fee_paid := p.amount }
          { p with gateway := some .phonepe,
                   payment_id := dec.transactionId,
                   reference_id := pyOrStr dec.utr dec.providerReferenceId,
                   gateway_response := dec.raw,
                   status := .paid, paid_at := some now } with h | h <;> rw [h]
    · rw [update_not_paid_eq cfg d now p adm dec hp, if_neg hp]
      exact hb
  · unfold admission_success_backfill
    rw [if_neg]
    intro hcon
    rw [hb] at hcon
    exact Option.noConfusion hcon.2
  · cases hv : verify_razorpay_signature hm oid pid sg k with
    | false =>
      rw [pvf_invalid_eq hm k cfg d now oid pid sg p adm hv]
      simpa [hv] using hb
    | true =>
      rw [pvf_valid_eq hm k cfg d now oid pid sg p adm hv]
      rcases maybe_send_eq_or cfg d now
          { adm with fee_status := .paid, fee_paid := p.amount }
          { p with status := .paid, payment_id := pid, signature := sg,
                   paid_at := some now } with h | h <;> simp [h, hv]

/-- C3 (witness): the amended theorem applied at the counterexample
inputs. -/
theorem c3_witness :
    c3Payment.paid_at = some 5 ∧
    ((update_payment_from_phonepe c3Cfg c3Disp 9 c3Payment c3Admission
        c3PaidOutcome).1.paid_at
      = (if map_phonepe_status (resolvedState c3PaidOutcome)
              (resolvedCode c3PaidOutcome) = PaymentStatus.paid
         then some 9 else some 5) ∧
      admission_success_backfill 9 c3Payment = c3Payment ∧
      (payment_verify_found (fun _ _ => "x") "sek" c3Cfg c3Disp 9 "o" "p" "bad"
        c3Payment c3Admission).2.1.paid_at
        = (if verify_razorpay_signature (fun _ _ => "x") "o" "p" "bad" "sek"
           then some 9 else some 5)) :=
  ⟨by decide,
    c3_paid_at_rules c3Cfg c3Disp 9 c3Payment c3Admission c3PaidOutcome
      (fun _ _ => "x") "sek" "o" "p" "bad" 5 (by decide)⟩

/-- C6: on the redirect-verify path, when the posted order id matches a
stored Payment but the signature fails provider-A verification, the view
reports verification failure and the store update writes that payment with
status Failed and the offered payment_id/signature persisted for audit,
while the admission row is written back unchanged; a `paid_at` that was
null stays null. -/
theorem c6_invalid_signature_audit (hm : String → String → String)
    (k : String) (cfg : NotifyConfig) (d : DispatchOutcome) (now : Nat)
    (oid pid sg : String) (db : List AccountRow) (row : AccountRow)
    (hfind : findByOrderId db oid = some row)
    (hv : verify_razorpay_signature hm oid pid sg k = false)
    (hnull : row.payment.paid_at = none) :
    payment_verify hm k cfg d now oid pid sg db =
      (VerifyOutcome.verificationFailed,
        storeRow db row.admission_id
          { row.payment with
              status := .failed, payment_id := pid, signature := sg }
          row.admission) ∧
    ({ row.payment with
        status := .failed, payment_id := pid, signature := sg } :
      Payment).paid_at = none := by
  constructor
  · unfold payment_verify
    rw [hfind]
    dsimp only
    rw [pvf_invalid_eq hm k cfg d now oid pid sg row.payment row.admission hv]
  · exact hnull

/-- The store row used by the C6 witness: a pending payment awaiting
redirect-verify. -/
def c6Row : AccountRow :=
  { admission_id := 42,
    payment :=
      { amount := 1500, gateway := some .razorpay, status := .pending,
        reference_id := "", order_id := "ORD6", payment_id := "",
        signature := "", gateway_response := "", notified_at := none,
        paid_at := none },
    admission := { fee_amount := 1500, fee_paid := 0, fee_status := .pending } }

/-- C6 (witness): the theorem applied to a one-row store and a signature
that fails verification. -/
theorem c6_witness :
    (findByOrderId [c6Row] "ORD6" = some c6Row ∧
      verify_razorpay_signature (fun _ _ => "x") "ORD6" "PAY6" "bad" "sek"
        = false ∧
      c6Row.payment.paid_at = none) ∧
    (payment_verify (fun _ _ => "x") "sek" witnessCfg witnessDisp 7 "ORD6" "PAY6" "bad"
        [c6Row] =
      (VerifyOutcome.verificationFailed,
        storeRow [c6Row] c6Row.admission_id
          { c6Row.payment with
              status := .failed, payment_id := "PAY6", signature := "bad" }
          c6Row.admission) ∧
      ({ c6Row.payment with
          status := .failed, payment_id := "PAY6", signature := "bad" } :
        Payment).paid_at = none) :=
  ⟨⟨by decide, by decide, by decide⟩,
    c6_invalid_signature_audit (fun _ _ => "x") "sek" witnessCfg witnessDisp 7
      "ORD6" "PAY6" "bad" [c6Row] c6Row (by decide) (by decide) (by decide)⟩

/-- C7: each of the three entry points reports not-found and performs zero
writes when its lookup key matches no Payment: redirect-verify looking up
the posted order id, the webhook callback looking up the decoded merchant
transaction id, and the status poll looking up the admission id all return
the not-found outcome with the store unchanged. -/
theorem c7_not_found_zero_writes (hm : String → String → String)
    (k : String) (cfg : NotifyConfig) (d : DispatchOutcome) (now : Nat)
    (oid pid sg tid : String) (dec : PhonePeDecoded)
    (fetched : Option PhonePeDecoded) (aid : Nat) (db : List AccountRow)
    (h1 : findByOrderId db oid = none)
    (hmt : dec.merchantTransactionId = some tid)
    (hne : tid ≠ "")
    (h2 : findByOrderId db tid = none)
    (h3 : findByAdmissionId db aid = none) :
    payment_verify hm k cfg d now oid pid sg db = (.notFound, db) ∧
    phonepe_callback cfg d now dec db = (.paymentNotFound, db) ∧
    phonepe_status_check cfg d now fetched aid db = (.notFound, db) := by
  refine ⟨?_, ?_, ?_⟩
  · unfold payment_verify
    rw [h1]
  · unfold phonepe_callback
    rw [hmt]
    dsimp only
    rw [if_neg hne, h2]
  · unfold phonepe_status_check
    rw [h3]

/-- A decoded callback payload whose merchant transaction id matches no
payment in the empty store. -/
def c7Decoded : PhonePeDecoded :=
  { data_state := some "COMPLETED", top_state := "", data_responseCode := none,
    top_code := "", transactionId := "T1", utr := "U1",
    providerReferenceId := "", merchantTransactionId := some "NOPE", raw := "" }

/-- C7 (witness): the theorem applied to the empty store, where every
lookup misses. -/
theorem c7_witness :
    (findByOrderId [] "NOPE" = none ∧
      c7Decoded.merchantTransactionId = some "NOPE" ∧
      ("NOPE" : String) ≠ "" ∧
      findByAdmissionId [] 3 = none) ∧
    (payment_verify (fun _ _ => "x") "sek" witnessCfg witnessDisp 7 "NOPE" "p" "s" []
        = (.notFound, []) ∧
      phonepe_callback witnessCfg witnessDisp 7 c7Decoded [] = (.paymentNotFound, []) ∧
      phonepe_status_check witnessCfg witnessDisp 7 none 3 [] = (.notFound, [])) :=
  ⟨⟨by decide, by decide, by decide, by decide⟩,
    c7_not_found_zero_writes (fun _ _ => "x") "sek" witnessCfg witnessDisp 7
      "NOPE" "p" "s" "NOPE" c7Decoded none 3 [] (by decide) (by decide)
      (by decide) (by decide) (by decide)⟩

/-- A fresh pending payment awaiting its first gateway outcome. -/
def c2Start : Payment :=
  { amount := 1500, gateway := none, status := .pending, reference_id := "",
    order_id := "ADM42171700000001", payment_id := "", signature := "",
    gateway_response := "", notified_at := none, paid_at := none }

/-- The admission matching `c2Start`. -/
def c2Adm : Admission :=
  { fee_amount := 1500, fee_paid := 0, fee_status := .pending }

/-- The Paid-mapped callback payload of the replay scenario. -/
def c2PaidDec : PhonePeDecoded :=
  { data_state := some "COMPLETED", top_state := "", data_responseCode := none,
    top_code := "", transactionId := "T1", utr := "U1",
    providerReferenceId := "", merchantTransactionId := some "ADM42171700000001",
    raw := "" }

/-- State after applying the Paid callback once at time 1. -/
def c2Once : Payment × Admission :=
  update_payment_from_phonepe witnessCfg witnessDisp 1 c2Start c2Adm c2PaidDec

/-- State after replaying the same Paid callback at time 2. -/
def c2Twice : Payment × Admission :=
  update_payment_from_phonepe witnessCfg witnessDisp 2 c2Once.1 c2Once.2 c2PaidDec

/-- C2 (counterexample): replaying the same Paid callback payload does not
yield a state identical to applying it once — the second application
overwrites `paid_at` (1 becomes 2) — although `notified_at` is not
re-stamped. -/
theorem c2_counterexample :
    c2Once.1.paid_at = some 1 ∧
    c2Twice.1.paid_at = some 2 ∧
    c2Twice ≠ c2Once ∧
    c2Once.1.notified_at = some 1 ∧
    c2Twice.1.notified_at = some 1 := by
  decide

/-- C2 (amended): replaying the same Paid-mapped callback payload (with the
same configuration and dispatch behaviour) leaves the admission and every
payment field unchanged except `paid_at`, which is overwritten with the
replay's timestamp; in particular the replay does not re-dispatch the
notification (`notified_at` is unchanged) and the status stays Paid. -/
theorem c2_replay_almost_idempotent (cfg : NotifyConfig) (d : DispatchOutcome)
    (t1 t2 : Nat) (p : Payment) (adm : Admission) (dec : PhonePeDecoded)
    (hp : map_phonepe_status (resolvedState dec) (resolvedCode dec)
      = PaymentStatus.paid) :
    (update_payment_from_phonepe cfg d t2
        (update_payment_from_phonepe cfg d t1 p adm dec).1
        (update_payment_from_phonepe cfg d t1 p adm dec).2 dec).2
      = (update_payment_from_phonepe cfg d t1 p adm dec).2 ∧
    (update_payment_from_phonepe cfg d t2
        (update_payment_from_phonepe cfg d t1 p adm dec).1
        (update_payment_from_phonepe cfg d t1 p adm dec).2 dec).1
      = { (update_payment_from_phonepe cfg d t1 p adm dec).1 with
          paid_at := some t2 } ∧
    (update_payment_from_phonepe cfg d t2
        (update_payment_from_phonepe cfg d t1 p adm dec).1
        (update_payment_from_phonepe cfg d t1 p adm dec).2 dec).1.notified_at
      = (update_payment_from_phonepe cfg d t1 p adm dec).1.notified_at := by
  rw [update_paid_eq cfg d t1 p adm dec hp]
  rw [update_paid_eq cfg d t2 _ _ dec hp]
  unfold maybe_send_payment_notifications
  cases hsend : cfg.send_payment_notifications with
  | false => simp
  | true =>
    cases hn : p.notified_at with
    | some u => simp [hn]
    | none =>
      cases hsucc : (cfg.sms_configured && d.sms_ok)
          || (cfg.whatsapp_configured && d.whatsapp_ok) with
      | false => simp [hn, hsucc]
      | true => simp [hn, hsucc]

/-- C2 (witness): the amended theorem applied to the concrete replay
scenario. -/
theorem c2_witness :
    map_phonepe_status (resolvedState c2PaidDec) (resolvedCode c2PaidDec)
        = PaymentStatus.paid ∧
    (c2Twice.2 = c2Once.2 ∧
      c2Twice.1 = { c2Once.1 with paid_at := some 2 } ∧
      c2Twice.1.notified_at = c2Once.1.notified_at) :=
  ⟨by decide,
    c2_replay_almost_idempotent witnessCfg witnessDisp 1 2 c2Start c2Adm
      c2PaidDec (by decide)⟩

/-- The forward direction of the C5 invariant: whenever the payment's
status is Paid, the admission is marked paid and `fee_paid` equals the
payment amount. -/
def paidImpliesSynced (s : Payment × Admission) : Prop :=
  s.1.status = PaymentStatus.paid →
    s.2.fee_status = FeeStatus.paid ∧ s.2.fee_paid = s.1.amount

/-- A single reconciliation operation preserves the forward direction of
the C5 invariant. -/
theorem runOp_preserves_synced (op : ReconOp) (s : Payment × Admission)
    (hs : paidImpliesSynced s) : paidImpliesSynced (runOp op s) := by
  cases op with
  | phonepeOutcome cfg d now dec =>
    show paidImpliesSynced (update_payment_from_phonepe cfg d now s.1 s.2 dec)
    by_cases hp : map_phonepe_status (resolvedState dec) (resolvedCode dec)
        = PaymentStatus.paid
    · intro _
      rw [update_paid_eq cfg d now s.1 s.2 dec hp]
      rcases maybe_send_eq_or cfg d now
          { s.2 with fee_status := .paid, fee_paid := s.1.amount }
          { s.1 with gateway := some .phonepe,
                     payment_id := dec.transactionId,
                     reference_id := pyOrStr dec.utr dec.providerReferenceId,
                     gateway_response := dec.raw,
                     status := .paid, paid_at := some now } with h | h <;>
        rw [h] <;> exact ⟨rfl, rfl⟩
    · intro hpaid
      rw [update_status_eq cfg d now s.1 s.2 dec] at hpaid
      exact absurd hpaid hp
  | redirectVerify hm k cfg d now oid pid sg =>
    show paidImpliesSynced (payment_verify_found hm k cfg d now oid pid sg
      s.1 s.2).2
    cases hv : verify_razorpay_signature hm oid pid sg k with
    | false =>
      intro hpaid
      rw [pvf_invalid_eq hm k cfg d now oid pid sg s.1 s.2 hv] at hpaid
      exact absurd hpaid (by intro hcon; exact PaymentStatus.noConfusion hcon)
    | true =>
      intro _
      rw [pvf_valid_eq hm k cfg d now oid pid sg s.1 s.2 hv]
      rcases maybe_send_eq_or cfg d now
          { s.2 with fee_status := .paid, fee_paid := s.1.amount }
          { s.1 with status := .paid, payment_id := pid, signature := sg,
                     paid_at := some now } with h | h <;>
        rw [h] <;> exact ⟨rfl, rfl⟩

/-- C5 (amended): after any sequence of reconciliation operations starting
from a state satisfying it (in particular the fresh Pending state), if the
Payment's status is Paid then the Admission's fee status is Paid and its
fee paid equals Payment.amount. The converse direction of the claim is
false: a Failed outcome arriving after Paid regresses the payment without
resetting the admission. -/
theorem c5_paid_implies_synced (ops : List ReconOp) (s : Payment × Admission)
    (hs : paidImpliesSynced s) : paidImpliesSynced (runOps ops s) := by
  induction ops generalizing s with
  | nil => exact hs
  | cons op rest ih => exact ih (runOp op s) (runOp_preserves_synced op s hs)

/-- A fresh pending payment/admission pair for the C5 scenario. -/
def c5Start : Payment × Admission :=
  ({ amount := 1500, gateway := none, status := .pending, reference_id := "",
     order_id := "ORD5", payment_id := "", signature := "",
     gateway_response := "", notified_at := none, paid_at := none },
   { fee_amount := 1500, fee_paid := 0, fee_status := .pending })

/-- A Paid-mapped outcome for the payment of `c5Start`. -/
def c5PaidDec : PhonePeDecoded :=
  { data_state := some "COMPLETED", top_state := "", data_responseCode := none,
    top_code := "", transactionId := "T5", utr := "U5",
    providerReferenceId := "", merchantTransactionId := some "ORD5", raw := "" }

/-- A Failed-mapped outcome for the payment of `c5Start`. -/
def c5FailDec : PhonePeDecoded :=
  { data_state := some "FAILED", top_state := "", data_responseCode := none,
    top_code := "", transactionId := "T5", utr := "",
    providerReferenceId := "", merchantTransactionId := some "ORD5", raw := "" }

/-- The two-outcome sequence Paid-then-Failed. -/
def c5Ops : List ReconOp :=
  [ReconOp.phonepeOutcome witnessCfg witnessDisp 1 c5PaidDec,
   ReconOp.phonepeOutcome witnessCfg witnessDisp 2 c5FailDec]

/-- C5 (counterexample): after the sequence Paid-then-Failed starting from
a fresh pending state, the Payment's status is Failed while the Admission's
fee status is still Paid with `fee_paid = 1500` — so the claimed
"fee status Paid iff payment status Paid" equivalence fails. -/
theorem c5_counterexample :
    (runOps c5Ops c5Start).1.status = PaymentStatus.failed ∧
    (runOps c5Ops c5Start).2.fee_status = FeeStatus.paid ∧
    (runOps c5Ops c5Start).2.fee_paid = 1500 := by
  decide

/-- C5 (witness): the amended theorem applied to the concrete
Paid-then-Failed sequence from the fresh pending state. -/
theorem c5_witness :
    paidImpliesSynced c5Start ∧ paidImpliesSynced (runOps c5Ops c5Start) :=
  have hw : paidImpliesSynced c5Start := fun h => absurd h (by decide)
  ⟨hw, c5_paid_implies_synced c5Ops c5Start hw⟩

end Admissions
